import Mathlib

/-!
Shallow embedding of the `stacksafe` crate: the growth policy store
(`src/stacksafe/src/lib.rs`), the protected-context tracker
(`src/stacksafe/src/internal.rs`), the `StackSafe<T>` guard type, and the
wrapper code generated by the `#[stacksafe]` attribute
(`src/stacksafe-macro/src/lib.rs`).

Conventions of the embedding:
  - the pair of process-wide atomics is a `PolicyStore` record passed in
    and out of the setters (atomic store/load becomes record update/read);
  - `cfg(debug_assertions)` becomes an explicit `BuildMode` argument;
  - the per-thread `PROTECTED` cell becomes an explicit `Bool` threaded
    through computations: a computation is `Comp ε α = Bool → Except ε α × Bool`,
    where `Except.error` models a panic (unwind) and the second component is
    the value of the flag when the computation finishes or unwinds;
  - a `debug_assert!` failure is an `AccessResult.aborted` carrying the
    panic message;
  - the external `stacker::maybe_grow` primitive is modelled from the spec
    contract: its decision depends on the current headroom, and the sizes of
    any newly allocated segments are reported alongside the result.
-/

namespace Stacksafe

/-- Build configuration: whether debug assertions are compiled in, i.e. the
two arms of `cfg(debug_assertions)` / `cfg(not(debug_assertions))` in the
Rust source. -/
inductive BuildMode where
  | debug
  | release

/-- The two process-wide tunables, `static MINIMUM_STACK_SIZE: AtomicUsize`
and `static STACK_ALLOC_SIZE: AtomicUsize`, gathered into one record so the
atomic stores and loads become record updates and reads. -/
structure PolicyStore where
  MINIMUM_STACK_SIZE : Nat
  STACK_ALLOC_SIZE : Nat

/-- The initial values of the two statics:
`AtomicUsize::new(128 * 1024)` and `AtomicUsize::new(2 * 1024 * 1024)`. -/
def initialPolicy : PolicyStore :=
  { MINIMUM_STACK_SIZE := 128 * 1024, STACK_ALLOC_SIZE := 2 * 1024 * 1024 }

/-- `set_minimum_stack_size`: `MINIMUM_STACK_SIZE.store(bytes, Ordering::Relaxed)`. -/
def set_minimum_stack_size (bytes : Nat) (s : PolicyStore) : PolicyStore :=
  { s with MINIMUM_STACK_SIZE := bytes }

/-- `get_minimum_stack_size`: `MINIMUM_STACK_SIZE.load(Ordering::Relaxed)`. -/
def get_minimum_stack_size (s : PolicyStore) : Nat :=
  s.MINIMUM_STACK_SIZE

/-- `set_stack_allocation_size`: `STACK_ALLOC_SIZE.store(bytes, Ordering::Relaxed)`. -/
def set_stack_allocation_size (bytes : Nat) (s : PolicyStore) : PolicyStore :=
  { s with STACK_ALLOC_SIZE := bytes }

/-- `get_stack_allocation_size`: `STACK_ALLOC_SIZE.load(Ordering::Relaxed)`. -/
def get_stack_allocation_size (s : PolicyStore) : Nat :=
  s.STACK_ALLOC_SIZE

/-- The initial value of the per-thread protected flag:
`static PROTECTED: Cell<bool> = Cell::new(false)` in `internal.rs`. -/
def PROTECTED_INIT : Bool := false

/-- `internal::is_protected`: under `cfg(debug_assertions)` it reads the
per-thread `PROTECTED` cell; under `cfg(not(debug_assertions))` it is the
constant `true`. -/
def is_protected (mode : BuildMode) (flag : Bool) : Bool :=
  match mode with
  | BuildMode.debug => flag
  | BuildMode.release => true

/-- A computation over the per-thread protected flag. Applied to the flag's
current value it yields either `Except.ok` (normal return) or `Except.error`
(panic / unwind), together with the flag's value at that exit. -/
abbrev Comp (ε α : Type) : Type := Bool → Except ε α × Bool

/-- A computation whose outcome does not depend on the protected flag and
which leaves the flag untouched: the embedding of an ordinary function body,
whose own result (success or error) is fixed in advance. -/
def toComp {ε α : Type} (result : Except ε α) : Comp ε α :=
  fun flag => (result, flag)

/-- `internal::with_protected(callback)`, the closure it returns. Under
`cfg(debug_assertions)`: `let old = PROTECTED.replace(true); let ret = callback();
PROTECTED.set(old); ret`. The restore `PROTECTED.set(old)` runs only when
`callback()` returns normally; if the callback unwinds, the flag is left as
the callback left it (the source installs no unwind guard). Under
`cfg(not(debug_assertions))` the closure is just `callback`. -/
def with_protected {ε α : Type} (mode : BuildMode) (callback : Comp ε α) : Comp ε α :=
  match mode with
  | BuildMode.debug => fun flag =>
      match callback true with
      | (Except.ok ret, _) => (Except.ok ret, flag)
      | (Except.error e, f) => (Except.error e, f)
  | BuildMode.release => callback

/-- Modelled from the spec: the external Stack-Bounds Provider primitive
`stacker::maybe_grow(red_zone, stack_size, callback)`. If the remaining
headroom of the current thread is at least `red_zone`, the callback runs on
the current stack and no segment is allocated; otherwise a new segment of
`stack_size` bytes is allocated, the callback runs on it, and the segment is
released afterwards. The returned list records the sizes of the segments the
call allocated. -/
def maybe_grow {ε α : Type} (red_zone stack_size headroom : Nat) (callback : Comp ε α)
    (flag : Bool) : (Except ε α × Bool) × List Nat :=
  if red_zone ≤ headroom then (callback flag, [])
  else (callback flag, [stack_size])

/-- The wrapper the `#[stacksafe]` attribute generates around a function
body (`src/stacksafe-macro/src/lib.rs`):
`stacker::maybe_grow(get_minimum_stack_size(), get_stack_allocation_size(),
with_protected(move || { body }))`. -/
def stacksafe_wrap {ε α : Type} (mode : BuildMode) (policy : PolicyStore) (headroom : Nat)
    (body : Comp ε α) (flag : Bool) : (Except ε α × Bool) × List Nat :=
  maybe_grow (get_minimum_stack_size policy) (get_stack_allocation_size policy) headroom
    (with_protected mode body) flag

/-- `pub struct StackSafe<T>(ManuallyDrop<T>)`. `ManuallyDrop<T>` is a
layout-transparent wrapper whose only effect is to suppress the automatic
destructor of its content, so the stored datum is modelled as the `T` itself. -/
structure StackSafe (T : Type) where
  val : T

/-- `StackSafe::new(value)`: wraps the value, with no protection check. -/
def StackSafe.new {T : Type} (value : T) : StackSafe T :=
  { val := value }

/-- `impl From<T> for StackSafe<T>`: delegates to `StackSafe::new`. -/
def StackSafe.fromT {T : Type} (value : T) : StackSafe T :=
  StackSafe.new value

/-- `impl Default for StackSafe<T>`: wraps `T::default()`; the default value
of `T` is passed explicitly as `d`. -/
def StackSafe.defaultImpl {T : Type} (d : T) : StackSafe T :=
  { val := d }

/-- Outcome of an operation that may fail a `debug_assert!`: either the
process aborts by panicking with a message, or the operation yields a value. -/
inductive AccessResult (α : Type) where
  | aborted (msg : String)
  | ok (value : α)

/-- The panic message of the `debug_assert!` in `Deref` and `DerefMut` for
`StackSafe` (`src/stacksafe/src/lib.rs`). -/
def stackSafeAccessMsg : String :=
  "`StackSafe` should only be accessed within a stack-safe context\nhelp: add `#[stacksafe::stacksafe]` to the function containing this access"

/-- `impl Deref for StackSafe<T>`: `debug_assert!(is_protected(), ...)` then
`&self.0`. In a release build the assertion is compiled out (and
`is_protected` is constantly `true` there), so the access always succeeds. -/
def StackSafe.deref {T : Type} (mode : BuildMode) (flag : Bool) (s : StackSafe T) :
    AccessResult T :=
  if is_protected mode flag then AccessResult.ok s.val
  else AccessResult.aborted stackSafeAccessMsg

/-- `impl DerefMut for StackSafe<T>`: the same assertion as `deref`, then
`&mut self.0`. -/
def StackSafe.deref_mut {T : Type} (mode : BuildMode) (flag : Bool) (s : StackSafe T) :
    AccessResult T :=
  if is_protected mode flag then AccessResult.ok s.val
  else AccessResult.aborted stackSafeAccessMsg

/-- The body of `Clone::clone` for `StackSafe<T>`:
`StackSafe(self.0.clone())`. For the pure values of the embedding, cloning
the contained value yields that value itself. -/
def StackSafe.cloneBody {ε T : Type} (s : StackSafe T) : Comp ε (StackSafe T) :=
  fun flag => (Except.ok { val := s.val }, flag)

/-- `impl Clone for StackSafe<T>` as generated by its
`#[stacksafe(crate = crate)]` attribute: the clone body run through the
guarded entry point. -/
def StackSafe.cloneGuarded {ε T : Type} (mode : BuildMode) (policy : PolicyStore)
    (headroom : Nat) (s : StackSafe T) (flag : Bool) :
    (Except ε (StackSafe T) × Bool) × List Nat :=
  stacksafe_wrap mode policy headroom (StackSafe.cloneBody s) flag

/-- `ManuallyDrop::drop` runs the wrapped value's destructor exactly once:
its contract in the Rust standard library. -/
def manuallyDropExplicitRuns : Nat := 1

/-- The automatic drop glue of a `ManuallyDrop<T>` field runs the wrapped
value's destructor zero times: `ManuallyDrop` suppresses it, which is the
point of the field's type. -/
def manuallyDropGlueRuns : Nat := 0

/-- The body of `Drop::drop` for `StackSafe<T>`:
`unsafe { ManuallyDrop::drop(&mut self.0) }`. It reports how many times the
contained destructor ran and the protected-flag value that destructor
observed while running. -/
def StackSafe.dropBody {ε : Type} : Comp ε (Nat × Bool) :=
  fun flag => (Except.ok (manuallyDropExplicitRuns, flag), flag)

/-- Destruction of a `StackSafe<T>` value: the `#[stacksafe]`-guarded
`Drop::drop` body runs first, then the drop glue of the `ManuallyDrop` field
runs (adding its zero destructor invocations). The result carries the total
number of inner-destructor runs and the flag value the destructor observed. -/
def StackSafe.destroy {ε : Type} (mode : BuildMode) (policy : PolicyStore) (headroom : Nat)
    (flag : Bool) : (Except ε (Nat × Bool) × Bool) × List Nat :=
  let g := stacksafe_wrap mode policy headroom StackSafe.dropBody flag
  let res :=
    match g.1.1 with
    | Except.ok (n, seen) => Except.ok (n + manuallyDropGlueRuns, seen)
    | Except.error e => Except.error e
  ((res, g.1.2), g.2)

/-- A body that observes the protected flag and returns it: used to state
that a guarded call's dynamic extent sees the flag as `true`. -/
def observeFlag : Comp Unit Bool :=
  fun flag => (Except.ok flag, flag)

/-- A body that panics (unwinds) without touching the flag. -/
def panickingBody : Comp String Unit :=
  fun flag => (Except.error "boom", flag)

/-- Claim C1: for every build mode, policy, headroom, prior flag value and
flag-independent body, the `#[stacksafe]` wrapper returns exactly the body's
own result — errors produced by the body pass through unchanged — and when
the headroom meets the minimum-stack threshold no new segment is allocated. -/
theorem stacksafe_wrap_transparent {ε α : Type} (mode : BuildMode) (policy : PolicyStore)
    (headroom : Nat) (flag : Bool) (body : Except ε α) :
    (stacksafe_wrap mode policy headroom (toComp body) flag).1.1 = body
    ∧ (get_minimum_stack_size policy ≤ headroom →
        (stacksafe_wrap mode policy headroom (toComp body) flag).2 = []) := by
  constructor
  · unfold stacksafe_wrap maybe_grow
    split <;> (cases mode <;> cases body <;> rfl)
  · intro h
    unfold stacksafe_wrap maybe_grow
    rw [if_pos h]

/-- Witness for C1 at a concrete erroring body, the initial policy and ample
headroom: the error passes through unchanged and no segment is allocated. -/
theorem stacksafe_wrap_transparent_witness :
    (stacksafe_wrap BuildMode.debug initialPolicy (256 * 1024)
        (toComp (Except.error "boom") : Comp String Nat) false).1.1 = Except.error "boom"
    ∧ (stacksafe_wrap BuildMode.debug initialPolicy (256 * 1024)
        (toComp (Except.error "boom") : Comp String Nat) false).2 = [] := by
  have h := stacksafe_wrap_transparent (ε := String) (α := Nat) BuildMode.debug initialPolicy
    (256 * 1024) false (Except.error "boom")
  exact ⟨h.1, h.2 (by decide)⟩

/-- Claim C2: in a debug build, `deref` and `deref_mut` on a `StackSafe`
guard abort with the diagnostic naming the missing `#[stacksafe::stacksafe]`
annotation when the flag is not set, and succeed with the original contained
value when inside a guarded call; in a release build the access is always
permitted. -/
theorem stacksafe_access_protection {T : Type} (v : T) :
    StackSafe.deref BuildMode.debug false (StackSafe.new v)
        = AccessResult.aborted stackSafeAccessMsg
    ∧ StackSafe.deref_mut BuildMode.debug false (StackSafe.new v)
        = AccessResult.aborted stackSafeAccessMsg
    ∧ StackSafe.deref BuildMode.debug true (StackSafe.new v) = AccessResult.ok v
    ∧ StackSafe.deref_mut BuildMode.debug true (StackSafe.new v) = AccessResult.ok v
    ∧ (∀ flag : Bool,
        StackSafe.deref BuildMode.release flag (StackSafe.new v) = AccessResult.ok v)
    ∧ (∀ flag : Bool,
        StackSafe.deref_mut BuildMode.release flag (StackSafe.new v) = AccessResult.ok v) :=
  ⟨rfl, rfl, rfl, rfl, fun _ => rfl, fun _ => rfl⟩

/-- Claim C3: the per-thread protected flag starts out `false`; the dynamic
extent of a guarded call observes the flag as `true`; and a guarded call
whose body returns normally restores the flag to the value it had before the
call — in particular an inner guarded call that returns inside an outer one
leaves the flag `true`. -/
theorem protected_flag_discipline {ε α : Type} (body : Comp ε α) (flag : Bool) (r : α)
    (f : Bool) (h : body true = (Except.ok r, f)) :
    PROTECTED_INIT = false
    ∧ (∀ g : Bool, with_protected BuildMode.debug observeFlag g = (Except.ok true, g))
    ∧ with_protected BuildMode.debug body flag = (Except.ok r, flag)
    ∧ (with_protected BuildMode.debug body true).2 = true := by
  refine ⟨rfl, fun g => rfl, ?_, ?_⟩
  · simp only [with_protected, h]
  · simp only [with_protected, h]

/-- Witness for C3 at a concrete normally-returning body, entered both
unprotected and already-protected. -/
theorem protected_flag_discipline_witness :
    PROTECTED_INIT = false
    ∧ (∀ g : Bool, with_protected BuildMode.debug observeFlag g = (Except.ok true, g))
    ∧ with_protected BuildMode.debug (toComp (Except.ok 7) : Comp Unit Nat) false
        = (Except.ok 7, false)
    ∧ (with_protected BuildMode.debug (toComp (Except.ok 7) : Comp Unit Nat) true).2 = true :=
  protected_flag_discipline (toComp (Except.ok 7)) false 7 true rfl

/-- Claim C4 as stated is false on the code: `with_protected` installs no
unwind guard, so when the body panics the restore of the prior flag value is
skipped. Concretely, entering unprotected (flag `false`) with a panicking
body exits with the flag still `true`, not restored to `false`. -/
theorem with_protected_unwind_counterexample :
    ¬ ((with_protected BuildMode.debug panickingBody false).2 = false) := by
  decide

/-- Claim C4 (amended): the prior flag value is captured on entry and
restored on every normal return; on an unwinding exit the restore is skipped
and the flag is left with the value the body's execution left it. -/
theorem with_protected_restore_paths {ε α : Type} (body : Comp ε α) (flag : Bool) :
    (∀ (r : α) (f : Bool), body true = (Except.ok r, f) →
      with_protected BuildMode.debug body flag = (Except.ok r, flag))
    ∧ (∀ (e : ε) (f : Bool), body true = (Except.error e, f) →
      with_protected BuildMode.debug body flag = (Except.error e, f)) := by
  constructor
  · intro r f h
    simp only [with_protected, h]
  · intro e f h
    simp only [with_protected, h]

/-- Witness for the amended C4: a normally-returning body has the flag
restored, a panicking body entered unprotected leaves the flag `true`. -/
theorem with_protected_restore_paths_witness :
    with_protected BuildMode.debug (toComp (Except.ok 3) : Comp String Nat) false
        = (Except.ok 3, false)
    ∧ with_protected BuildMode.debug panickingBody false = (Except.error "boom", true) :=
  ⟨(with_protected_restore_paths (toComp (Except.ok 3)) false).1 3 true rfl,
   (with_protected_restore_paths panickingBody false).2 "boom" true rfl⟩

/-- Claim C5 as stated is false on the code: the setters store their
argument unvalidated, so storing zero destroys positivity of the field. -/
theorem policy_positivity_counterexample :
    ¬ (0 < (set_minimum_stack_size 0 initialPolicy).MINIMUM_STACK_SIZE) := by
  decide

/-- Claim C5 (amended): the defaults are positive, and a store preserves
positivity of both fields whenever its argument is positive; a zero argument
is stored as-is (no validation), so positivity is preserved only for
positive arguments. -/
theorem policy_positivity_preserved (s : PolicyStore) (n : Nat) (hn : 0 < n)
    (halloc : 0 < s.STACK_ALLOC_SIZE) (hmin : 0 < s.MINIMUM_STACK_SIZE) :
    (0 < (set_minimum_stack_size n s).MINIMUM_STACK_SIZE
      ∧ 0 < (set_minimum_stack_size n s).STACK_ALLOC_SIZE)
    ∧ (0 < (set_stack_allocation_size n s).MINIMUM_STACK_SIZE
      ∧ 0 < (set_stack_allocation_size n s).STACK_ALLOC_SIZE)
    ∧ 0 < initialPolicy.MINIMUM_STACK_SIZE
    ∧ 0 < initialPolicy.STACK_ALLOC_SIZE :=
  ⟨⟨hn, halloc⟩, ⟨hmin, hn⟩, by decide, by decide⟩

/-- Witness for the amended C5 at the initial policy and argument 1. -/
theorem policy_positivity_preserved_witness :
    (0 < (set_minimum_stack_size 1 initialPolicy).MINIMUM_STACK_SIZE
      ∧ 0 < (set_minimum_stack_size 1 initialPolicy).STACK_ALLOC_SIZE)
    ∧ (0 < (set_stack_allocation_size 1 initialPolicy).MINIMUM_STACK_SIZE
      ∧ 0 < (set_stack_allocation_size 1 initialPolicy).STACK_ALLOC_SIZE)
    ∧ 0 < initialPolicy.MINIMUM_STACK_SIZE
    ∧ 0 < initialPolicy.STACK_ALLOC_SIZE :=
  policy_positivity_preserved initialPolicy 1 (by decide) (by decide) (by decide)

/-- Claim C6: in a release build `is_protected` returns `true` on every
call, its answer does not depend on the per-thread flag, and the release-mode
`with_protected` closure is the callback itself — no per-thread state is
consulted or modified. -/
theorem is_protected_release_constant {ε α : Type} (body : Comp ε α) :
    (∀ flag : Bool, is_protected BuildMode.release flag = true)
    ∧ (∀ f g : Bool, is_protected BuildMode.release f = is_protected BuildMode.release g)
    ∧ with_protected BuildMode.release body = body :=
  ⟨fun _ => rfl, fun _ _ => rfl, rfl⟩

/-- Claim C7: each setter/getter pair round-trips on its field, and before
any store the values are 128 KiB and 2 MiB. -/
theorem policy_roundtrip_defaults (s : PolicyStore) (n : Nat) :
    get_minimum_stack_size (set_minimum_stack_size n s) = n
    ∧ get_stack_allocation_size (set_stack_allocation_size n s) = n
    ∧ get_minimum_stack_size initialPolicy = 128 * 1024
    ∧ get_stack_allocation_size initialPolicy = 2 * 1024 * 1024 :=
  ⟨rfl, rfl, rfl, rfl⟩

/-- Claim C8: reading a freshly wrapped value back inside a guarded call
(debug build, flag set) yields the original value, and the guarded clone of a
guard yields a guard whose contained value equals the original's, for every
build mode, policy and headroom. -/
theorem stacksafe_roundtrip_clone {ε T : Type} (mode : BuildMode) (policy : PolicyStore)
    (headroom : Nat) (v : T) :
    StackSafe.deref BuildMode.debug true (StackSafe.new v) = AccessResult.ok v
    ∧ (StackSafe.cloneGuarded (ε := ε) mode policy headroom (StackSafe.new v) true).1.1
        = Except.ok (StackSafe.new v) := by
  constructor
  · rfl
  · unfold StackSafe.cloneGuarded stacksafe_wrap maybe_grow
    split <;> (cases mode <;> rfl)

/-- Claim C9: destroying a `StackSafe` guard runs the contained destructor
exactly once (the guarded `Drop::drop` body runs it once, the `ManuallyDrop`
field's drop glue zero times); in a debug build the destructor observes the
protected flag as `true`, and afterwards the flag is back to its prior
value. -/
theorem stacksafe_drop_once_protected {ε : Type} (policy : PolicyStore) (headroom : Nat)
    (flag : Bool) :
    (StackSafe.destroy (ε := ε) BuildMode.debug policy headroom flag).1.1
        = Except.ok (1, true)
    ∧ (StackSafe.destroy (ε := ε) BuildMode.debug policy headroom flag).1.2 = flag := by
  unfold StackSafe.destroy stacksafe_wrap maybe_grow
  constructor <;> (split <;> rfl)

/-- Claim C10: construction of a guard via `new`, `From` or `Default` takes
no protection flag in the embedding — it never consults the tracker — and
always yields a guard containing the given value, even though in the same
debug build an unprotected `deref` of the constructed guard aborts. -/
theorem stacksafe_construction_unchecked {T : Type} (v d : T) :
    (StackSafe.new v).val = v
    ∧ StackSafe.fromT v = StackSafe.new v
    ∧ (StackSafe.defaultImpl d).val = d
    ∧ StackSafe.deref BuildMode.debug false (StackSafe.new v)
        = AccessResult.aborted stackSafeAccessMsg :=
  ⟨rfl, rfl, rfl, rfl⟩

end Stacksafe
